import Mathlib

/-!
Verification development for the UiPath developer-console Run/Eval
orchestration core (`uipath.dev`): the `RunService` and `EvalRunService`
state machines, the `EvalRun` scoring/serialization model, the trace
upsert logic, the result-parsing fallback chain, and the debug bridge.

Python sources embedded here:
  - `src/uipath/dev/services/run_service.py` (RunService)
  - `src/uipath/dev/services/eval_run_service.py` (EvalRunService)
  - `src/uipath/dev/models/eval_run.py` (EvalRun / EvaluationResult / EvaluatorResult)
  - `src/uipath/dev/services/debug_bridge.py` (TextualDebugBridge)

Conventions of the embedding:
  - Python dicts whose contents are opaque to the orchestration code are
    `List (String × String)`; JSON payloads that the code inspects are the
    `Json` inductive below.
  - Python floats (evaluator scores, durations) are `ℚ`.
  - `datetime` values are natural-number tick counts; the current clock is
    passed explicitly as a `now` argument.
  - Raising an exception is modelled by `Except`; a function that Python
    guarantees not to raise is a total Lean function.
  - Callback invocations (`on_run_updated`, `on_log`, `on_trace`) are
    recorded in an explicit event list.
-/

/-- Opaque Python dict (input/output payloads the orchestrator does not inspect). -/
abbrev PyDict := List (String × String)

/-- Modelled from the spec: `LogMessage` record (`models/messages.py` is not in
the source snapshot); fields per spec section 3: run_id, level, message, timestamp.
The message body (plain text or a pre-rendered rich traceback) is a string here. -/
structure LogMessage where
  run_id : String
  level : String
  message : String
  timestamp : Nat
deriving DecidableEq, Repr

/-- Modelled from the spec: `TraceMessage` record (`models/messages.py` is not in
the source snapshot); fields per spec section 3. -/
structure TraceMessage where
  run_id : String
  trace_id : String
  span_id : String
  parent_span_id : Option String
  span_name : String
  status : String
  timestamp : Nat
  duration_ms : Option Nat
  trace_attributes : PyDict
deriving DecidableEq, Repr

/-- Structured error contract of the external `uipath.runtime.errors` library:
machine-readable code, title, detail (as used by both services). -/
structure UiPathErrorContract where
  code : String
  title : String
  detail : String
deriving DecidableEq, Repr

/-- Modelled from the spec: `ExecutionRun` record (`models/execution.py` is not in
the source snapshot); fields per spec section 3 (chat messages omitted: no claim
touches them). Status strings: pending, running, completed, failed, suspended. -/
structure ExecutionRun where
  id : String
  entrypoint : String
  input_data : Option PyDict
  mode : String
  status : String
  start_time : Option Nat
  end_time : Option Nat
  output_data : Option PyDict
  error : Option UiPathErrorContract
  resume_data : Option PyDict
  logs : List LogMessage
  traces : List TraceMessage
deriving DecidableEq, Repr

/-- Output payload carried by a runtime result: either a pydantic `BaseModel`
(unwrapped via `model_dump()`) or a plain mapping. -/
inductive RuntimeOutput where
  | baseModel (dump : PyDict)
  | plain (value : PyDict)
deriving DecidableEq, Repr

/-- Result returned by the external runtime's `execute` (uipath.runtime). -/
structure RuntimeResult where
  status : String
  resume : Bool
  output : Option RuntimeOutput
deriving DecidableEq, Repr

/-- Value of the external `UiPathRuntimeStatus.SUSPENDED` enum member compared
against `result.status` in `RunService.execute`. -/
def UiPathRuntimeStatus.SUSPENDED : String := "suspended"

/-- Options record passed to the runtime's execute (`UiPathExecuteOptions`);
`RunService.execute` only ever sets the `resume` flag. -/
structure UiPathExecuteOptions where
  resume : Bool := false
deriving DecidableEq, Repr

/-- Observable callback events emitted by a service: an `on_run_updated`
notification, an `on_log` forward, or an `on_trace` forward. -/
inductive SvcEvent where
  | runUpdated
  | onLogCb (m : LogMessage)
  | onTraceCb (t : TraceMessage)
deriving DecidableEq, Repr

/-- Unwrapping of `result.output` in `RunService.execute` lines 115-120:
`None` becomes the empty dict, a `BaseModel` is `model_dump()`ed, anything
else is stored as-is. -/
def unwrapOutput : Option RuntimeOutput → PyDict
  | none => []
  | some (RuntimeOutput.baseModel d) => d
  | some (RuntimeOutput.plain d) => d

/-- Python truthiness of an optional dict (`if run.output_data:`):
`None` and the empty dict are falsy. -/
def truthyOptDict : Option PyDict → Bool
  | some (_ :: _) => true
  | _ => false

/-- Effect of `RunService._add_info_log` on a registered run: the log message is
routed through `handle_log`, which appends it to the run's log list, emits
`on_run_updated`, then forwards to the raw `on_log` callback. -/
def addInfoLog (st : ExecutionRun × List SvcEvent) (msg : String) (now : Nat) :
    ExecutionRun × List SvcEvent :=
  let m : LogMessage := { run_id := st.1.id, level := "INFO", message := msg, timestamp := now }
  ({ st.1 with logs := st.1.logs ++ [m] },
   st.2 ++ [SvcEvent.runUpdated, SvcEvent.onLogCb m])

/-- Effect of `RunService._add_error_log` on a registered run (the message body
is a rendered rich traceback; its text is immaterial to every claim). -/
def addErrorLog (st : ExecutionRun × List SvcEvent) (now : Nat) :
    ExecutionRun × List SvcEvent :=
  let m : LogMessage := { run_id := st.1.id, level := "ERROR", message := "traceback", timestamp := now }
  ({ st.1 with logs := st.1.logs ++ [m] },
   st.2 ++ [SvcEvent.runUpdated, SvcEvent.onLogCb m])

/-- Outcome of driving the try-block body of `RunService.execute`: the factory
plus the runtime's `execute` either return a result (possibly `None`), raise a
structured `UiPathRuntimeError`, or raise some other `Exception` (title is
`str(e)`, detail is the formatted traceback). -/
inductive RunOutcome where
  | ok (result : Option RuntimeResult)
  | errRuntime (e : UiPathErrorContract)
  | errOther (title : String) (detail : String)
deriving DecidableEq, Repr

/-- Return bundle of the embedded `RunService.execute`: the updated run, the
emitted callback events, and the input/options the runtime was invoked with. -/
structure RunExecResult where
  run : ExecutionRun
  events : List SvcEvent
  calledInput : Option PyDict
  calledOptions : UiPathExecuteOptions
deriving DecidableEq, Repr

/-- Embedding of `RunService.execute` (run_service.py lines 70-146) for a
registered run, with the runtime behaviour injected as `outcome`. The function
is total: the Python method never re-raises (both `except` arms of the source
swallow the exception into run state). Exceptions raised anywhere in the try
body (factory instantiation, runtime execute, output handling) reach the same
two handlers and are represented by the two error outcomes. -/
def RunService.executeRun (run : ExecutionRun) (outcome : RunOutcome) (now : Nat) :
    RunExecResult :=
  let resuming : Bool := run.status = "suspended"
  let calledInput : Option PyDict := if resuming then run.resume_data else run.input_data
  let calledOptions : UiPathExecuteOptions := { resume := resuming }
  let entryMsg : String :=
    if resuming then "Resuming execution: " ++ run.entrypoint
    else "Starting execution: " ++ run.entrypoint
  let st0 := addInfoLog (run, []) entryMsg now
  let run1 : ExecutionRun := { st0.1 with status := "running", start_time := some now }
  let evs1 : List SvcEvent := st0.2 ++ [SvcEvent.runUpdated]
  let final : ExecutionRun × List SvcEvent :=
    match outcome with
    | RunOutcome.ok res =>
      let run2 : ExecutionRun :=
        match res with
        | some r =>
          if r.status = UiPathRuntimeStatus.SUSPENDED ∧ r.resume then
            { run1 with status := "suspended" }
          else
            { run1 with output_data := some (unwrapOutput r.output), status := "completed" }
        | none => run1
      let st2 : ExecutionRun × List SvcEvent :=
        if truthyOptDict run2.output_data then
          addInfoLog (run2, evs1) "Execution result" now
        else (run2, evs1)
      let st3 := addInfoLog st2 "Execution completed successfully" now
      ({ st3.1 with end_time := some now }, st3.2)
    | RunOutcome.errRuntime e =>
      let st2 := addErrorLog (run1, evs1) now
      ({ st2.1 with status := "failed", end_time := some now, error := some e }, st2.2)
    | RunOutcome.errOther title detail =>
      let st2 := addErrorLog (run1, evs1) now
      ({ st2.1 with
          status := "failed"
          end_time := some now
          error := some { code := "Unknown", title := title, detail := detail } }, st2.2)
  { run := final.1
    events := final.2 ++ [SvcEvent.runUpdated]
    calledInput := calledInput
    calledOptions := calledOptions }

/-- Upsert-by-`span_id` loop of `handle_trace` (both services): the first
existing entry with the incoming message's span id is replaced in place;
if none matches, the message is appended (the for/else of the source). -/
def upsertTrace (traces : List TraceMessage) (msg : TraceMessage) : List TraceMessage :=
  match traces with
  | [] => [msg]
  | t :: rest =>
    if t.span_id = msg.span_id then msg :: rest
    else t :: upsertTrace rest msg

/-- In-memory run table of `RunService` (`self.runs : Dict[str, ExecutionRun]`). -/
abbrev RunTable := String → Option ExecutionRun

/-- Embedding of `RunService.handle_log` (run_service.py lines 148-156): append
to the matching run's logs and notify, then forward to the raw `on_log`
callback; an unmatched message is only forwarded, never stored. -/
def RunService.handleLog (runs : RunTable) (msg : LogMessage) :
    RunTable × List SvcEvent :=
  match runs msg.run_id with
  | some run =>
    let run2 : ExecutionRun := { run with logs := run.logs ++ [msg] }
    (fun i => if i = msg.run_id then some run2 else runs i,
     [SvcEvent.runUpdated, SvcEvent.onLogCb msg])
  | none => (runs, [SvcEvent.onLogCb msg])

/-- Embedding of `RunService.handle_trace` (run_service.py lines 158-173):
upsert by span id into the matching run's traces and notify, then forward to
the raw `on_trace` callback; an unmatched message is only forwarded. -/
def RunService.handleTrace (runs : RunTable) (msg : TraceMessage) :
    RunTable × List SvcEvent :=
  match runs msg.run_id with
  | some run =>
    let run2 : ExecutionRun := { run with traces := upsertTrace run.traces msg }
    (fun i => if i = msg.run_id then some run2 else runs i,
     [SvcEvent.runUpdated, SvcEvent.onTraceCb msg])
  | none => (runs, [SvcEvent.onTraceCb msg])

/-- Result from a single evaluator for a single evaluation
(eval_run.py lines 16-25); the score is a 0..1 float, modelled in ℚ. -/
structure EvaluatorResult where
  evaluator_id : String
  evaluator_name : String
  score : ℚ
  details : String := ""
  evaluation_time : ℚ := 0
  justification : String := ""
deriving DecidableEq, Repr

/-- Result for a single evaluation (eval_run.py lines 28-34). -/
structure EvaluationResult where
  eval_id : String
  eval_name : String
  evaluator_results : List EvaluatorResult := []
deriving DecidableEq, Repr

/-- Embedding of the `EvaluationResult.passed` property (eval_run.py lines 36-39):
all contained evaluator scores equal 1.0. -/
def EvaluationResult.passed (r : EvaluationResult) : Bool :=
  r.evaluator_results.all (fun x => decide (x.score = 1))

/-- State record of an `EvalRun` instance (eval_run.py lines 42-86). The
constructor defaulting logic lives in `EvalRun.make`. -/
structure EvalRun where
  id : String
  eval_set_path : String
  entrypoint : String
  name : String
  status : String
  start_time : Nat
  end_time : Option Nat
  evaluator_refs : List String
  evaluation_results : List EvaluationResult
  error : Option UiPathErrorContract
  logs : List LogMessage
  traces : List TraceMessage
  no_report : Bool
  workers : Int
  eval_set_run_id : Option String
  enable_mocker_cache : Bool
  eval_ids : List String
  report_coverage : Bool
  output_file : Option String
deriving DecidableEq, Repr

/-- Embedding of `EvalRun.__init__` (eval_run.py lines 45-86): `id` defaults to
a generated 8-char id (`freshId`), an empty `name` is replaced by
`Run: <id>`, `start_time` defaults to the current clock, logs/traces and
evaluation results start empty. -/
def EvalRun.make (eval_set_path entrypoint : String) (id : Option String)
    (name : String) (no_report : Bool) (workers : Int)
    (eval_set_run_id : Option String) (enable_mocker_cache : Bool)
    (eval_ids : Option (List String)) (report_coverage : Bool)
    (output_file : Option String) (status : String)
    (start_time end_time : Option Nat) (evaluator_refs : Option (List String))
    (error : Option UiPathErrorContract) (freshId : String) (now : Nat) : EvalRun :=
  let theId := id.getD freshId
  { id := theId
    eval_set_path := eval_set_path
    entrypoint := entrypoint
    name := if name = "" then "Run: " ++ theId else name
    status := status
    start_time := start_time.getD now
    end_time := end_time
    evaluator_refs := evaluator_refs.getD []
    evaluation_results := []
    error := error
    logs := []
    traces := []
    no_report := no_report
    workers := workers
    eval_set_run_id := eval_set_run_id
    enable_mocker_cache := enable_mocker_cache
    eval_ids := eval_ids.getD []
    report_coverage := report_coverage
    output_file := output_file }

/-- Flat list of all evaluator scores of an eval run, in the nested-loop order
of `EvalRun.overall_score` (eval_run.py lines 155-159). -/
def EvalRun.allScores (r : EvalRun) : List ℚ :=
  (r.evaluation_results.map (fun er => er.evaluator_results.map (fun ev => ev.score))).flatten

/-- Embedding of the `EvalRun.overall_score` property (eval_run.py lines
153-160): the mean of all scores, 0.0 when there are none. -/
def EvalRun.overall_score (r : EvalRun) : ℚ :=
  if r.allScores.isEmpty then 0 else r.allScores.sum / r.allScores.length

/-- Embedding of the `EvalRun.duration` property (eval_run.py lines 88-97),
returning the elapsed seconds it formats: against `end_time` when it is set,
against the current clock otherwise (`start_time` is always set, so the final
`return "0.0s"` of the source is unreachable). -/
def EvalRun.durationSeconds (r : EvalRun) (now : Nat) : Int :=
  match r.end_time with
  | some e => (e : Int) - (r.start_time : Int)
  | none => (now : Int) - (r.start_time : Int)

/-- Modelled from the spec: the external stdlib `datetime.isoformat`, an
injective encoding of a timestamp into a never-empty string. The concrete
digits of the real ISO-8601 text are immaterial to every claim; only
injectivity, non-emptiness, and invertibility are used. -/
def DateTime.isoformat (t : Nat) : String :=
  String.mk (Char.ofNat 100 :: List.replicate t (Char.ofNat 120))

/-- Modelled from the spec: the external stdlib `datetime.fromisoformat`,
the inverse decoding of `DateTime.isoformat`. -/
def DateTime.fromisoformat (s : String) : Nat :=
  s.length - 1

/-- Serialized form of an `EvaluatorResult` as emitted by `EvalRun.to_dict`
(eval_run.py lines 178-186). -/
structure EvaluatorResultDict where
  evaluator_id : String
  evaluator_name : String
  score : ℚ
  details : String
  evaluation_time : ℚ
  justification : String
deriving DecidableEq, Repr

/-- Serialized form of an `EvaluationResult` as emitted by `EvalRun.to_dict`
(eval_run.py lines 174-188). -/
structure EvaluationResultDict where
  eval_id : String
  eval_name : String
  evaluator_results : List EvaluatorResultDict
deriving DecidableEq, Repr

/-- Serialized form of an `EvalRun` as emitted by `EvalRun.to_dict`
(eval_run.py lines 162-200). Timestamps are ISO strings; the external error
contract serializes field-for-field, so its dict form is the contract itself. -/
structure EvalRunDict where
  id : String
  name : String
  eval_set_path : String
  entrypoint : String
  status : String
  start_time : String
  end_time : Option String
  evaluator_refs : List String
  evaluation_results : List EvaluationResultDict
  error : Option UiPathErrorContract
  no_report : Bool
  workers : Int
  eval_set_run_id : Option String
  enable_mocker_cache : Bool
  eval_ids : List String
  report_coverage : Bool
  output_file : Option String
deriving DecidableEq, Repr

/-- Serialization of one evaluator result inside `EvalRun.to_dict`. -/
def EvaluatorResult.to_dict (r : EvaluatorResult) : EvaluatorResultDict :=
  { evaluator_id := r.evaluator_id
    evaluator_name := r.evaluator_name
    score := r.score
    details := r.details
    evaluation_time := r.evaluation_time
    justification := r.justification }

/-- Serialization of one evaluation result inside `EvalRun.to_dict`. -/
def EvaluationResult.to_dict (r : EvaluationResult) : EvaluationResultDict :=
  { eval_id := r.eval_id
    eval_name := r.eval_name
    evaluator_results := r.evaluator_results.map EvaluatorResult.to_dict }

/-- Embedding of `EvalRun.to_dict` (eval_run.py lines 162-200). -/
def EvalRun.to_dict (r : EvalRun) : EvalRunDict :=
  { id := r.id
    name := r.name
    eval_set_path := r.eval_set_path
    entrypoint := r.entrypoint
    status := r.status
    start_time := DateTime.isoformat r.start_time
    end_time := r.end_time.map DateTime.isoformat
    evaluator_refs := r.evaluator_refs
    evaluation_results := r.evaluation_results.map EvaluationResult.to_dict
    error := r.error
    no_report := r.no_report
    workers := r.workers
    eval_set_run_id := r.eval_set_run_id
    enable_mocker_cache := r.enable_mocker_cache
    eval_ids := r.eval_ids
    report_coverage := r.report_coverage
    output_file := r.output_file }

/-- Deserialization of one evaluator result inside `EvalRun.from_dict`
(eval_run.py lines 234-244). -/
def EvaluatorResultDict.toResult (d : EvaluatorResultDict) : EvaluatorResult :=
  { evaluator_id := d.evaluator_id
    evaluator_name := d.evaluator_name
    score := d.score
    details := d.details
    evaluation_time := d.evaluation_time
    justification := d.justification }

/-- Deserialization of one evaluation result inside `EvalRun.from_dict`
(eval_run.py lines 229-245). -/
def EvaluationResultDict.toResult (d : EvaluationResultDict) : EvaluationResult :=
  { eval_id := d.eval_id
    eval_name := d.eval_name
    evaluator_results := d.evaluator_results.map EvaluatorResultDict.toResult }

/-- Embedding of `EvalRun.from_dict` (eval_run.py lines 202-247): the record is
rebuilt through the constructor (`EvalRun.make`), timestamps parsed from their
ISO strings when truthy (non-empty), then the evaluation results are appended.
`freshId` and `now` are the constructor defaults, unused when the dict carries
an id and a start time. -/
def EvalRun.from_dict (d : EvalRunDict) (freshId : String) (now : Nat) : EvalRun :=
  let base := EvalRun.make d.eval_set_path d.entrypoint (some d.id) d.name
    d.no_report d.workers d.eval_set_run_id d.enable_mocker_cache
    (some d.eval_ids) d.report_coverage d.output_file d.status
    (if d.start_time = "" then none else some (DateTime.fromisoformat d.start_time))
    (match d.end_time with
     | some s => if s = "" then none else some (DateTime.fromisoformat s)
     | none => none)
    (some d.evaluator_refs) d.error freshId now
  { base with evaluation_results := d.evaluation_results.map EvaluationResultDict.toResult }

/-- JSON-shaped Python value inspected by `_parse_eval_results`. -/
inductive Json where
  | null
  | bool (b : Bool)
  | num (q : ℚ)
  | str (s : String)
  | arr (elems : List Json)
  | obj (fields : List (String × Json))

/-- Python truthiness of a JSON-shaped value (`if not data:`): `None`, `False`,
zero, the empty string, the empty list and the empty dict are falsy. -/
def Json.truthy : Json → Bool
  | Json.null => false
  | Json.bool b => b
  | Json.num q => decide (q ≠ 0)
  | Json.str s => decide (s ≠ "")
  | Json.arr l => !l.isEmpty
  | Json.obj l => !l.isEmpty

/-- Key lookup in a JSON object field list (first binding wins, as in a
Python dict rebuilt from parsed JSON). -/
def Json.lookupKey (fields : List (String × Json)) (k : String) : Option Json :=
  (fields.find? (fun p => p.1 = k)).map (fun p => p.2)

/-- Exceptions `_parse_eval_results` can raise past its internal handlers:
an `AttributeError` from calling `.get` on a non-dict, or a `TypeError` from
iterating a non-iterable. -/
inductive PyError where
  | attrError (msg : String)
  | typeError (msg : String)
deriving DecidableEq, Repr

/-- Python `value.get(key, default)`: defined on dicts, an `AttributeError`
on every other value. -/
def Json.getD (j : Json) (k : String) (dflt : Json) : Except PyError Json :=
  match j with
  | Json.obj fields => Except.ok ((Json.lookupKey fields k).getD dflt)
  | _ => Except.error (PyError.attrError "get")

/-- Python `for x in value`: lists yield their items, strings their characters,
dicts their keys; other values raise a `TypeError`. -/
def Json.iterElems : Json → Except PyError (List Json)
  | Json.arr xs => Except.ok xs
  | Json.str s => Except.ok (s.data.map (fun c => Json.str (String.mk [c])))
  | Json.obj fields => Except.ok (fields.map (fun p => Json.str p.1))
  | _ => Except.error (PyError.typeError "not iterable")

/-- Projection of a JSON value to the string stored in a result field. Python
stores the raw object; this model projects the string when the value is one
(every claim exercises only string-valued fields). -/
def Json.asStr : Json → String
  | Json.str s => s
  | _ => "<non-string>"

/-- Projection of a JSON value to the rational stored in a score field. Python
stores the raw object; this model projects the number when the value is one
(every claim exercises only numeric scores). -/
def Json.asNum : Json → ℚ
  | Json.num q => q
  | _ => 0

/-- Python `str(value)` applied to the `details` field; rendering of composite
values is elided (no claim reads it). -/
def Json.pyStr : Json → String
  | Json.str s => s
  | Json.num q => toString q
  | Json.bool true => "True"
  | Json.bool false => "False"
  | Json.null => "None"
  | Json.arr _ => "<list>"
  | Json.obj _ => "<dict>"

/-- In-memory `.output` of the evaluation result object passed to
`_parse_eval_results`: a JSON string, a dict, or some other object. -/
inductive ResultsOutput where
  | strVal (s : String)
  | dictVal (fields : List (String × Json))
  | otherVal

/-- Inner loop of `_parse_eval_results` (eval_run_service.py lines 351-364):
one `evaluationRunResults` entry becomes an `EvaluatorResult`; `evaluator_id`
is set to the evaluator name, missing fields take the documented defaults,
`.get` on a non-dict entry raises. -/
def parseOneEvaluator (j : Json) : Except PyError EvaluatorResult := do
  let name ← j.getD "evaluatorName" (Json.str "Unknown")
  let resultData ← j.getD "result" (Json.obj [])
  let score ← resultData.getD "score" (Json.num 0)
  let details ← resultData.getD "details" (Json.str "")
  let etime ← resultData.getD "evaluationTime" (Json.num 0)
  let just ← resultData.getD "justification" (Json.str "")
  Except.ok
    { evaluator_id := name.asStr
      evaluator_name := name.asStr
      score := score.asNum
      details := details.pyStr
      evaluation_time := etime.asNum
      justification := just.asStr }

/-- Sequencing of a fallible parser over a list, mirroring the Python
for-loops of `_parse_eval_results`: stop at the first raised error. -/
def exceptMapM (f : Json → Except PyError A) : List Json → Except PyError (List A)
  | [] => Except.ok []
  | x :: rest => do
    let y ← f x
    let ys ← exceptMapM f rest
    Except.ok (y :: ys)

/-- Outer loop body of `_parse_eval_results` (eval_run_service.py lines
344-366): one `evaluationSetResults` entry becomes an `EvaluationResult`. -/
def parseOneEvaluation (j : Json) : Except PyError EvaluationResult := do
  let name ← j.getD "evaluationName" (Json.str "Unknown")
  let theId ← j.getD "evaluationId" name
  let runResults ← j.getD "evaluationRunResults" (Json.arr [])
  let elems ← runResults.iterElems
  let evaluators ← exceptMapM parseOneEvaluator elems
  Except.ok
    { eval_id := theId.asStr
      eval_name := name.asStr
      evaluator_results := evaluators }

/-- First step of the `_parse_eval_results` fallback chain (lines 318-326):
data from the in-memory result output when it is truthy — a string is JSON
parsed (parse failure caught, yielding nothing), a dict is taken as-is,
any other object yields nothing. -/
def inlineData (resultsOutput : Option ResultsOutput)
    (jsonParse : String → Option Json) : Option Json :=
  match resultsOutput with
  | some (ResultsOutput.strVal s) => if s = "" then none else jsonParse s
  | some (ResultsOutput.dictVal fields) =>
    if fields.isEmpty then none else some (Json.obj fields)
  | some ResultsOutput.otherVal => none
  | none => none

/-- Second step of the fallback chain (lines 329-336): when the first step
yielded nothing truthy and an output file is named, read and JSON-parse it
(missing file or parse failure caught, keeping the previous data). -/
def dataWithFileFallback (data1 : Option Json) (outputFile : Option String)
    (fsRead : String → Option String) (jsonParse : String → Option Json) :
    Option Json :=
  if (data1.map Json.truthy).getD false then data1
  else
    match outputFile with
    | some f =>
      match fsRead f with
      | some contents =>
        match jsonParse contents with
        | some j => some j
        | none => data1
      | none => data1
    | none => data1

/-- Embedding of `EvalRunService._parse_eval_results` (eval_run_service.py
lines 309-366). The file system and the JSON parser are passed explicitly
(`fsRead`: file contents when the file exists; `jsonParse`: parsed value when
the text is valid JSON). The function raises (returns `Except.error`) exactly
where the Python raises: `.get` on a parsed non-dict payload, or iteration of
a non-iterable entry list. -/
def parseEvalResults (run : EvalRun) (resultsOutput : Option ResultsOutput)
    (outputFile : Option String) (fsRead : String → Option String)
    (jsonParse : String → Option Json) : Except PyError EvalRun :=
  match dataWithFileFallback (inlineData resultsOutput jsonParse)
      outputFile fsRead jsonParse with
  | none => Except.ok run
  | some d =>
    if d.truthy then do
      let esr ← d.getD "evaluationSetResults" (Json.arr [])
      let elems ← esr.iterElems
      let results ← exceptMapM parseOneEvaluation elems
      Except.ok { run with evaluation_results := run.evaluation_results ++ results }
    else Except.ok run

/-- Effect of `EvalRunService._add_info_log` on a registered eval run. -/
def addInfoLogE (st : EvalRun × List SvcEvent) (msg : String) (now : Nat) :
    EvalRun × List SvcEvent :=
  let m : LogMessage := { run_id := st.1.id, level := "INFO", message := msg, timestamp := now }
  ({ st.1 with logs := st.1.logs ++ [m] },
   st.2 ++ [SvcEvent.runUpdated, SvcEvent.onLogCb m])

/-- Effect of `EvalRunService._add_error_log` on a registered eval run. -/
def addErrorLogE (st : EvalRun × List SvcEvent) (msg : String) (now : Nat) :
    EvalRun × List SvcEvent :=
  let m : LogMessage := { run_id := st.1.id, level := "ERROR", message := msg, timestamp := now }
  ({ st.1 with logs := st.1.logs ++ [m] },
   st.2 ++ [SvcEvent.runUpdated, SvcEvent.onLogCb m])

/-- Exception propagated out of `EvalRunService.execute`: either a fresh
`RuntimeError` wrapping the recorded message, or the original exception
re-raised unchanged (identified by its type name and message). -/
inductive RaisedError where
  | runtimeError (msg : String)
  | reraised (typeName : String) (msg : String)
deriving DecidableEq, Repr

/-- Outcome of the try-block body of `EvalRunService.execute` up to and
including the `evaluate` call: either the evaluation returned (carrying the
inputs `_parse_eval_results` will see), or it raised `SystemExit`, or it
raised some other `BaseException` (`isException` marks `Exception`
subclasses, which are re-raised unchanged). -/
inductive EvalOutcome where
  | success (resultsOutput : Option ResultsOutput) (fsRead : String → Option String)
      (jsonParse : String → Option Json)
  | sysExit (code : Int)
  | exc (typeName : String) (msg : String) (isException : Bool)

/-- Return bundle of the embedded `EvalRunService.execute`: the updated run,
the emitted callback events, and the exception propagated to the caller
(`none` on the successful path). -/
structure EvalExecResult where
  run : EvalRun
  events : List SvcEvent
  raised : Option RaisedError

/-- Shared tail of the `except BaseException` handler of
`EvalRunService.execute` (eval_run_service.py lines 170-189): record a failed
status with the exception type name as error code, stamp `end_time`, log,
emit a final notification, then re-raise — unchanged for `Exception`
subclasses, wrapped in a `RuntimeError` otherwise. -/
def evalHandleBaseExc (run : EvalRun) (evs : List SvcEvent)
    (typeName msg : String) (isException : Bool) (now : Nat) : EvalExecResult :=
  let excStr := if msg = "" then "(no message)" else msg
  let errorMsg := typeName ++ ": " ++ excStr
  let run2 : EvalRun :=
    { run with
        status := "failed"
        end_time := some now
        error := some { code := typeName, title := excStr, detail := "traceback" } }
  let st3 := addErrorLogE (run2, evs) ("Exception caught - type: " ++ typeName) now
  let st4 := addErrorLogE st3 "traceback" now
  { run := st4.1
    events := st4.2 ++ [SvcEvent.runUpdated]
    raised := some (if isException then RaisedError.reraised typeName msg
                    else RaisedError.runtimeError errorMsg) }

/-- Embedding of `EvalRunService.execute` (eval_run_service.py lines 98-191)
for a registered run. The reporting setup, context construction and the
`evaluate` call are external effects summarized by `outcome`; a parse error
raised by `_parse_eval_results` lands in the generic `BaseException` handler
exactly as in the source. The method re-raises on every failure path (the
`raised` field), after run state is recorded and a final update emitted. -/
def EvalRunService.executeEval (run : EvalRun) (outcome : EvalOutcome) (now : Nat) :
    EvalExecResult :=
  let st0 := addInfoLogE (run, []) "Starting evaluation run..." now
  let st1 := addInfoLogE st0 "Eval set path" now
  let st2 := addInfoLogE st1 "Entrypoint" now
  let st3 := addInfoLogE st2 "Workers" now
  let run1 : EvalRun := { st3.1 with status := "running" }
  let evs1 : List SvcEvent := st3.2 ++ [SvcEvent.runUpdated]
  match outcome with
  | EvalOutcome.success resultsOutput fsRead jsonParse =>
    let st4 := addInfoLogE (run1, evs1) "Entrypoint" now
    let st5 := addInfoLogE st4 "Eval set" now
    match parseEvalResults st5.1 resultsOutput st5.1.output_file fsRead jsonParse with
    | Except.ok run2 =>
      let run3 : EvalRun := { run2 with status := "completed" }
      let st6 := addInfoLogE (run3, st5.2) "Evaluation completed" now
      { run := st6.1, events := st6.2 ++ [SvcEvent.runUpdated], raised := none }
    | Except.error e =>
      let typeName := match e with
        | PyError.attrError _ => "AttributeError"
        | PyError.typeError _ => "TypeError"
      let msg := match e with
        | PyError.attrError m => m
        | PyError.typeError m => m
      evalHandleBaseExc st5.1 st5.2 typeName msg true now
  | EvalOutcome.sysExit code =>
    let errorMsg := "Evaluation process exited with code: " ++ toString code
    let run2 : EvalRun :=
      { run1 with
          status := "failed"
          end_time := some now
          error := some { code := "SystemExit", title := errorMsg, detail := "" } }
    let st4 := addErrorLogE (run2, evs1) ("SystemExit caught - " ++ errorMsg) now
    { run := st4.1
      events := st4.2 ++ [SvcEvent.runUpdated]
      raised := some (RaisedError.runtimeError errorMsg) }
  | EvalOutcome.exc typeName msg isException =>
    evalHandleBaseExc run1 evs1 typeName msg isException now

/-- In-memory run table of `EvalRunService` (`self.runs : dict[str, EvalRun]`). -/
abbrev EvalRunTable := String → Option EvalRun

/-- Embedding of `EvalRunService.handle_log` (eval_run_service.py lines
199-207): identical contract to `RunService.handle_log`, scoped to EvalRun. -/
def EvalRunService.handleLog (runs : EvalRunTable) (msg : LogMessage) :
    EvalRunTable × List SvcEvent :=
  match runs msg.run_id with
  | some run =>
    let run2 : EvalRun := { run with logs := run.logs ++ [msg] }
    (fun i => if i = msg.run_id then some run2 else runs i,
     [SvcEvent.runUpdated, SvcEvent.onLogCb msg])
  | none => (runs, [SvcEvent.onLogCb msg])

/-- Embedding of `EvalRunService.handle_trace` (eval_run_service.py lines
209-224): identical upsert contract to `RunService.handle_trace`. -/
def EvalRunService.handleTrace (runs : EvalRunTable) (msg : TraceMessage) :
    EvalRunTable × List SvcEvent :=
  match runs msg.run_id with
  | some run =>
    let run2 : EvalRun := { run with traces := upsertTrace run.traces msg }
    (fun i => if i = msg.run_id then some run2 else runs i,
     [SvcEvent.runUpdated, SvcEvent.onTraceCb msg])
  | none => (runs, [SvcEvent.onTraceCb msg])

/-- Mutable state of `TextualDebugBridge` (debug_bridge.py lines 17-22):
the connected flag, the `asyncio.Event` flag, and the quit-requested flag. -/
structure DebugBridgeState where
  connected : Bool
  eventSet : Bool
  quitRequested : Bool
deriving DecidableEq, Repr

/-- Initial state of a freshly constructed bridge (debug_bridge.py lines
17-22): not connected, event unset, no quit requested. -/
def TextualDebugBridge.init : DebugBridgeState :=
  { connected := false, eventSet := false, quitRequested := false }

/-- Embedding of `TextualDebugBridge.connect` (lines 35-39). -/
def TextualDebugBridge.connect (s : DebugBridgeState) : DebugBridgeState :=
  { s with connected := true, quitRequested := false }

/-- Embedding of `TextualDebugBridge.disconnect` (lines 41-45): clears the
connected flag and sets the event to unblock any waiting task. -/
def TextualDebugBridge.disconnect (s : DebugBridgeState) : DebugBridgeState :=
  { s with connected := false, eventSet := true }

/-- Embedding of `TextualDebugBridge.resume` (lines 93-95): sets the event. -/
def TextualDebugBridge.resume (s : DebugBridgeState) : DebugBridgeState :=
  { s with eventSet := true }

/-- Embedding of `TextualDebugBridge.quit` (lines 97-100): records the quit
request, then sets the event. -/
def TextualDebugBridge.quit (s : DebugBridgeState) : DebugBridgeState :=
  { s with quitRequested := true, eventSet := true }

/-- Entry of `TextualDebugBridge.wait_for_resume` (line 87): the waiter first
clears the event, then blocks on `wait()`. -/
def TextualDebugBridge.waitEnter (s : DebugBridgeState) : DebugBridgeState :=
  { s with eventSet := false }

/-- Outcome observed by a waiter once it wakes: a normal resume, or the
dedicated `UiPathDebugQuitError` signal. -/
inductive WaitOutcome where
  | resumed
  | quitSignal
deriving DecidableEq, Repr

/-- Wake-up check of a waiter blocked after `waitEnter` (lines 88-91):
`asyncio.Event.wait()` returns only when the event flag is set (`none` means
the waiter is still blocked); on wake-up, a pending quit request raises
`UiPathDebugQuitError`, otherwise the wait returns normally. -/
def TextualDebugBridge.waitPoll (s : DebugBridgeState) : Option WaitOutcome :=
  if s.eventSet then
    some (if s.quitRequested then WaitOutcome.quitSignal else WaitOutcome.resumed)
  else none

/-- Sample pending run used to witness the suspend/resume round-trip. -/
def examplePendingRun : ExecutionRun :=
  { id := "run-a"
    entrypoint := "agent.py"
    input_data := some [("question", "hello")]
    mode := "DEBUG"
    status := "pending"
    start_time := none
    end_time := none
    output_data := none
    error := none
    resume_data := some [("answer", "resumed")]
    logs := []
    traces := [] }

/-- Sample log message for the routing witness. -/
def exampleLogMsg : LogMessage :=
  { run_id := "run-a", level := "INFO", message := "hello", timestamp := 0 }

/-- Sample trace message (span started) for the upsert witness. -/
def exampleTraceA : TraceMessage :=
  { run_id := "run-a", trace_id := "t1", span_id := "s1", parent_span_id := none,
    span_name := "step", status := "started", timestamp := 1, duration_ms := none,
    trace_attributes := [] }

/-- Sample trace message (same span completed) for the upsert witness. -/
def exampleTraceB : TraceMessage :=
  { run_id := "run-a", trace_id := "t1", span_id := "s1", parent_span_id := none,
    span_name := "step", status := "completed", timestamp := 2, duration_ms := some 7,
    trace_attributes := [] }

/-- Registered-run table holding the sample pending run under its id. -/
def exampleRunTable : RunTable :=
  fun i => if i = "run-a" then some examplePendingRun else none

/-- Test payload in the documented `evaluationSetResults` shape (spec section
6), carrying one evaluation with the given id and name and one evaluator
entry per element of `evs` (name, score, details, evaluation time,
justification). -/
def wellShapedPayload (evalId evalName : String)
    (evs : List (String × ℚ × String × ℚ × String)) : Json :=
  Json.obj [("evaluationSetResults", Json.arr [Json.obj
    [("evaluationName", Json.str evalName),
     ("evaluationId", Json.str evalId),
     ("evaluationRunResults", Json.arr (evs.map (fun v =>
       Json.obj [("evaluatorName", Json.str v.1),
         ("result", Json.obj [("score", Json.num v.2.1),
           ("details", Json.str v.2.2.1),
           ("evaluationTime", Json.num v.2.2.2.1),
           ("justification", Json.str v.2.2.2.2)])])))]])]

/-- EvaluatorResult the parser extracts from one well-shaped evaluator entry. -/
def expectedEvaluatorResult (v : String × ℚ × String × ℚ × String) : EvaluatorResult :=
  { evaluator_id := v.1
    evaluator_name := v.1
    score := v.2.1
    details := v.2.2.1
    evaluation_time := v.2.2.2.1
    justification := v.2.2.2.2 }

/-- Sample evaluation result holding scores 1.0 and 0.5 (first example result
of the score-aggregation property). -/
def exampleEvaluationA : EvaluationResult :=
  { eval_id := "e1"
    eval_name := "first"
    evaluator_results :=
      [ { evaluator_id := "a", evaluator_name := "a", score := 1 },
        { evaluator_id := "b", evaluator_name := "b", score := 1/2 } ] }

/-- Sample evaluation result holding score 1.0 (second example result of the
score-aggregation property). -/
def exampleEvaluationB : EvaluationResult :=
  { eval_id := "e2"
    eval_name := "second"
    evaluator_results := [ { evaluator_id := "a", evaluator_name := "a", score := 1 } ] }

/-- Sample eval run holding the two example evaluation results. -/
def exampleEvalRun : EvalRun :=
  { id := "run1"
    eval_set_path := "evaluations/eval-sets/demo.json"
    entrypoint := "main.py"
    name := "Run: run1"
    status := "pending"
    start_time := 0
    end_time := none
    evaluator_refs := []
    evaluation_results := [exampleEvaluationA, exampleEvaluationB]
    error := none
    logs := []
    traces := []
    no_report := false
    workers := 1
    eval_set_run_id := none
    enable_mocker_cache := false
    eval_ids := []
    report_coverage := false
    output_file := none }

/-- C4: `overall_score` is the arithmetic mean of all evaluator scores across
all evaluation results (0.0 when there are none), and `passed` holds exactly
when every contained evaluator score equals 1.0; on the example run with
scores [1.0, 0.5] and [1.0] the overall score is 2.5/3 = 5/6, the first
result is not passed and the second is. -/
theorem evalrun_score_aggregation :
    (∀ r : EvalRun, r.allScores ≠ [] →
      r.overall_score = r.allScores.sum / (r.allScores.length : ℚ)) ∧
    (∀ r : EvalRun, r.allScores = [] → r.overall_score = 0) ∧
    (∀ er : EvaluationResult,
      er.passed = true ↔ ∀ ev ∈ er.evaluator_results, ev.score = 1) ∧
    exampleEvalRun.overall_score = 5/6 ∧
    exampleEvaluationA.passed = false ∧
    exampleEvaluationB.passed = true := by
  refine ⟨?_, ?_, ?_, ?_, ?_, ?_⟩
  · intro r h
    simp [EvalRun.overall_score, List.isEmpty_iff, h]
  · intro r h
    simp [EvalRun.overall_score, h]
  · intro er
    simp [EvaluationResult.passed, List.all_eq_true]
  · norm_num [EvalRun.overall_score, EvalRun.allScores, exampleEvalRun,
      exampleEvaluationA, exampleEvaluationB, List.isEmpty]
  · norm_num [EvaluationResult.passed, exampleEvaluationA]
  · norm_num [EvaluationResult.passed, exampleEvaluationB]

/-- Witness for the score-aggregation theorem at the example run. -/
theorem evalrun_score_aggregation_witness :
    exampleEvalRun.allScores ≠ [] ∧
    exampleEvalRun.overall_score =
      exampleEvalRun.allScores.sum / (exampleEvalRun.allScores.length : ℚ) :=
  ⟨by simp [EvalRun.allScores, exampleEvalRun, exampleEvaluationA, exampleEvaluationB],
   evalrun_score_aggregation.1 exampleEvalRun
     (by simp [EvalRun.allScores, exampleEvalRun, exampleEvaluationA, exampleEvaluationB])⟩

/-- C6 counterexample: the level-triggered part of the claim is false on the
code. Call `resume()` on the fresh bridge while no coroutine is waiting, then
have a coroutine enter `wait_for_resume()`: the wait clears the event flag
before waiting, so the waiter blocks (`waitPoll = none`) instead of
proceeding immediately as the claim requires. -/
theorem debug_bridge_not_level_triggered :
    TextualDebugBridge.waitPoll
      (TextualDebugBridge.waitEnter
        (TextualDebugBridge.resume TextualDebugBridge.init)) = none := rfl

/-- C6 amended: `wait_for_resume` clears the event on entry, so a waiter
always starts blocked and a `resume()` issued with no waiter pending is
discarded (edge-triggered, not level-triggered); a pending waiter is released
normally by `resume()` when no quit was requested, and `quit()` releases a
pending waiter with the dedicated `UiPathDebugQuitError` signal — even if
`resume()` was never called. -/
theorem debug_bridge_amended (s : DebugBridgeState) :
    TextualDebugBridge.waitPoll (TextualDebugBridge.waitEnter s) = none ∧
    TextualDebugBridge.waitPoll (TextualDebugBridge.waitEnter (TextualDebugBridge.resume s)) = none ∧
    (s.quitRequested = false →
      TextualDebugBridge.waitPoll
        (TextualDebugBridge.resume (TextualDebugBridge.waitEnter s)) =
        some WaitOutcome.resumed) ∧
    TextualDebugBridge.waitPoll
      (TextualDebugBridge.quit (TextualDebugBridge.waitEnter s)) =
      some WaitOutcome.quitSignal := by
  refine ⟨rfl, rfl, ?_, rfl⟩
  intro h
  simp [TextualDebugBridge.waitPoll, TextualDebugBridge.resume,
    TextualDebugBridge.waitEnter, h]

/-- Witness for the amended debug-bridge theorem at the freshly constructed
bridge state. -/
theorem debug_bridge_amended_witness :
    TextualDebugBridge.init.quitRequested = false ∧
    TextualDebugBridge.waitPoll
      (TextualDebugBridge.resume (TextualDebugBridge.waitEnter TextualDebugBridge.init)) =
      some WaitOutcome.resumed :=
  ⟨rfl, (debug_bridge_amended TextualDebugBridge.init).2.2.1 rfl⟩

/-- C1: on every failure injected into the try body of `RunService.execute`
(structured runtime error or any other exception), the total embedding returns
normally with `run.status = "failed"` and `run.error` populated — the
structured error passed through verbatim, any other exception wrapped with
code `Unknown` — and for every outcome whatsoever (success, suspend, `None`
result, or failure) the event trace ends with a final `on_run_updated`
notification. Totality of `RunService.executeRun` is the never-re-raises
guarantee: both except arms of the source swallow the exception. -/
theorem runservice_execute_never_raises (run : ExecutionRun) (now : Nat) :
    (∀ e : UiPathErrorContract,
      (RunService.executeRun run (RunOutcome.errRuntime e) now).run.status = "failed" ∧
      (RunService.executeRun run (RunOutcome.errRuntime e) now).run.error = some e) ∧
    (∀ title detail : String,
      (RunService.executeRun run (RunOutcome.errOther title detail) now).run.status = "failed" ∧
      (RunService.executeRun run (RunOutcome.errOther title detail) now).run.error =
        some { code := "Unknown", title := title, detail := detail }) ∧
    (∀ outcome : RunOutcome,
      (RunService.executeRun run outcome now).events.getLast? = some SvcEvent.runUpdated) := by
  refine ⟨?_, ?_, ?_⟩
  · intro e
    constructor <;> simp [RunService.executeRun, addInfoLog, addErrorLog]
  · intro title detail
    constructor <;> simp [RunService.executeRun, addInfoLog, addErrorLog]
  · intro outcome
    cases outcome <;>
      simp [RunService.executeRun, addInfoLog, addErrorLog, List.getLast?_append]

/-- C2: starting from a pending run, a first `execute` whose runtime reports
SUSPENDED with the resume flag leaves the run suspended (resume data
untouched); a second `execute` is then invoked with `resume = true` and the
run's `resume_data` as input, and a SUCCESSFUL result with output X completes
the run with `output_data` the unwrapped X (empty dict when X is absent). -/
theorem runservice_suspend_resume_roundtrip (r0 : ExecutionRun)
    (out1 out2 : Option RuntimeOutput) (now1 now2 : Nat)
    (h0 : r0.status = "pending") :
    (RunService.executeRun r0
      (RunOutcome.ok (some { status := UiPathRuntimeStatus.SUSPENDED, resume := true, output := out1 }))
      now1).run.status = "suspended" ∧
    (RunService.executeRun r0
      (RunOutcome.ok (some { status := UiPathRuntimeStatus.SUSPENDED, resume := true, output := out1 }))
      now1).run.resume_data = r0.resume_data ∧
    (RunService.executeRun
      (RunService.executeRun r0
        (RunOutcome.ok (some { status := UiPathRuntimeStatus.SUSPENDED, resume := true, output := out1 }))
        now1).run
      (RunOutcome.ok (some { status := "successful", resume := false, output := out2 }))
      now2).calledOptions.resume = true ∧
    (RunService.executeRun
      (RunService.executeRun r0
        (RunOutcome.ok (some { status := UiPathRuntimeStatus.SUSPENDED, resume := true, output := out1 }))
        now1).run
      (RunOutcome.ok (some { status := "successful", resume := false, output := out2 }))
      now2).calledInput = r0.resume_data ∧
    (RunService.executeRun
      (RunService.executeRun r0
        (RunOutcome.ok (some { status := UiPathRuntimeStatus.SUSPENDED, resume := true, output := out1 }))
        now1).run
      (RunOutcome.ok (some { status := "successful", resume := false, output := out2 }))
      now2).run.status = "completed" ∧
    (RunService.executeRun
      (RunService.executeRun r0
        (RunOutcome.ok (some { status := UiPathRuntimeStatus.SUSPENDED, resume := true, output := out1 }))
        now1).run
      (RunOutcome.ok (some { status := "successful", resume := false, output := out2 }))
      now2).run.output_data = some (unwrapOutput out2) := by
  refine ⟨?_, ?_, ?_, ?_, ?_, ?_⟩ <;>
    simp [RunService.executeRun, addInfoLog, truthyOptDict, h0,
      UiPathRuntimeStatus.SUSPENDED, apply_ite, ite_self]

/-- Witness for the suspend/resume round-trip at a concrete pending run with a
concrete plain-dict output on the second call. -/
theorem runservice_suspend_resume_roundtrip_witness :
    examplePendingRun.status = "pending" ∧
    (RunService.executeRun
      (RunService.executeRun examplePendingRun
        (RunOutcome.ok (some
          { status := UiPathRuntimeStatus.SUSPENDED
            resume := true
            output := none })) 1).run
      (RunOutcome.ok (some
        { status := "successful"
          resume := false
          output := some (RuntimeOutput.plain [("out", "42")]) })) 2).run.output_data =
      some (unwrapOutput (some (RuntimeOutput.plain [("out", "42")]))) :=
  ⟨rfl, (runservice_suspend_resume_roundtrip examplePendingRun none
    (some (RuntimeOutput.plain [("out", "42")])) 1 2 rfl).2.2.2.2.2⟩

/-- C8: every log or trace message is stored only on the run whose id equals
the message's `run_id` — all other registered runs are untouched — and when no
registered run matches, no run changes at all and the message is only
forwarded to the raw observer callback; this holds for `handle_log` and
`handle_trace` of both `RunService` and `EvalRunService`, and the matched run
receives exactly the append (logs) or upsert (traces). -/
theorem log_trace_routing :
    (∀ (tbl : RunTable) (m : LogMessage) (i : String), i ≠ m.run_id →
      (RunService.handleLog tbl m).1 i = tbl i) ∧
    (∀ (tbl : RunTable) (m : LogMessage) (r : ExecutionRun), tbl m.run_id = some r →
      (RunService.handleLog tbl m).1 m.run_id = some { r with logs := r.logs ++ [m] }) ∧
    (∀ (tbl : RunTable) (m : LogMessage), tbl m.run_id = none →
      (RunService.handleLog tbl m).1 = tbl ∧
      (RunService.handleLog tbl m).2 = [SvcEvent.onLogCb m]) ∧
    (∀ (tbl : RunTable) (m : TraceMessage) (i : String), i ≠ m.run_id →
      (RunService.handleTrace tbl m).1 i = tbl i) ∧
    (∀ (tbl : RunTable) (m : TraceMessage) (r : ExecutionRun), tbl m.run_id = some r →
      (RunService.handleTrace tbl m).1 m.run_id =
        some { r with traces := upsertTrace r.traces m }) ∧
    (∀ (tbl : RunTable) (m : TraceMessage), tbl m.run_id = none →
      (RunService.handleTrace tbl m).1 = tbl ∧
      (RunService.handleTrace tbl m).2 = [SvcEvent.onTraceCb m]) ∧
    (∀ (tbl : EvalRunTable) (m : LogMessage) (i : String), i ≠ m.run_id →
      (EvalRunService.handleLog tbl m).1 i = tbl i) ∧
    (∀ (tbl : EvalRunTable) (m : LogMessage) (r : EvalRun), tbl m.run_id = some r →
      (EvalRunService.handleLog tbl m).1 m.run_id = some { r with logs := r.logs ++ [m] }) ∧
    (∀ (tbl : EvalRunTable) (m : LogMessage), tbl m.run_id = none →
      (EvalRunService.handleLog tbl m).1 = tbl ∧
      (EvalRunService.handleLog tbl m).2 = [SvcEvent.onLogCb m]) ∧
    (∀ (tbl : EvalRunTable) (m : TraceMessage) (i : String), i ≠ m.run_id →
      (EvalRunService.handleTrace tbl m).1 i = tbl i) ∧
    (∀ (tbl : EvalRunTable) (m : TraceMessage) (r : EvalRun), tbl m.run_id = some r →
      (EvalRunService.handleTrace tbl m).1 m.run_id =
        some { r with traces := upsertTrace r.traces m }) ∧
    (∀ (tbl : EvalRunTable) (m : TraceMessage), tbl m.run_id = none →
      (EvalRunService.handleTrace tbl m).1 = tbl ∧
      (EvalRunService.handleTrace tbl m).2 = [SvcEvent.onTraceCb m]) := by
  refine ⟨?_, ?_, ?_, ?_, ?_, ?_, ?_, ?_, ?_, ?_, ?_, ?_⟩ <;>
    intro tbl m
  case _ =>
    intro i hi
    cases h : tbl m.run_id <;> simp [RunService.handleLog, h, hi]
  case _ =>
    intro r hr
    simp [RunService.handleLog, hr]
  case _ =>
    intro h
    simp [RunService.handleLog, h]
  case _ =>
    intro i hi
    cases h : tbl m.run_id <;> simp [RunService.handleTrace, h, hi]
  case _ =>
    intro r hr
    simp [RunService.handleTrace, hr]
  case _ =>
    intro h
    simp [RunService.handleTrace, h]
  case _ =>
    intro i hi
    cases h : tbl m.run_id <;> simp [EvalRunService.handleLog, h, hi]
  case _ =>
    intro r hr
    simp [EvalRunService.handleLog, hr]
  case _ =>
    intro h
    simp [EvalRunService.handleLog, h]
  case _ =>
    intro i hi
    cases h : tbl m.run_id <;> simp [EvalRunService.handleTrace, h, hi]
  case _ =>
    intro r hr
    simp [EvalRunService.handleTrace, hr]
  case _ =>
    intro h
    simp [EvalRunService.handleTrace, h]

/-- Witness for the routing theorem: with an empty run table, a log delivery
leaves the table unchanged and only forwards to the raw callback. -/
theorem log_trace_routing_witness :
    ((fun _ => none) : RunTable) exampleLogMsg.run_id = none ∧
    (RunService.handleLog (fun _ => none) exampleLogMsg).2 =
      [SvcEvent.onLogCb exampleLogMsg] :=
  ⟨rfl, (log_trace_routing.2.2.1 (fun _ => none) exampleLogMsg rfl).2⟩

/-- Appending behaviour of the trace upsert on a fresh span id: when no
existing entry carries the message's span id, the message is appended at the
end, preserving the order of the other spans. -/
theorem upsertTrace_of_not_mem (l : List TraceMessage) (m : TraceMessage)
    (h : m.span_id ∉ l.map TraceMessage.span_id) :
    upsertTrace l m = l ++ [m] := by
  induction l with
  | nil => rfl
  | cons t rest ih =>
    simp only [List.map_cons, List.mem_cons] at h
    push_neg at h
    rw [upsertTrace, if_neg (fun hc => h.1 hc.symm), ih h.2]
    rfl

/-- Span ids after an upsert: unchanged when the message's span id was already
present, extended by it otherwise. -/
theorem map_span_upsertTrace (l : List TraceMessage) (m : TraceMessage) :
    (upsertTrace l m).map TraceMessage.span_id =
      if m.span_id ∈ l.map TraceMessage.span_id then l.map TraceMessage.span_id
      else l.map TraceMessage.span_id ++ [m.span_id] := by
  induction l with
  | nil => simp [upsertTrace]
  | cons t rest ih =>
    by_cases hc : t.span_id = m.span_id
    · simp [upsertTrace, hc]
    · have hc2 : ¬ m.span_id = t.span_id := fun hh => hc hh.symm
      rw [upsertTrace, if_neg hc]
      by_cases hm : m.span_id ∈ rest.map TraceMessage.span_id
      · simp [hm, ih, hc2]
      · simp [hm, ih, hc2]

/-- Upserting preserves distinctness of span ids. -/
theorem nodup_upsertTrace (l : List TraceMessage) (m : TraceMessage)
    (h : (l.map TraceMessage.span_id).Nodup) :
    ((upsertTrace l m).map TraceMessage.span_id).Nodup := by
  rw [map_span_upsertTrace]
  by_cases hm : m.span_id ∈ l.map TraceMessage.span_id
  · simpa [hm]
  · simpa [hm] using List.Nodup.append h (List.nodup_singleton _)
      (by simpa [List.disjoint_singleton] using hm)

/-- Traces carrying a span id absent from a list are filtered away. -/
theorem filter_span_eq_nil (l : List TraceMessage) (s : String)
    (h : s ∉ l.map TraceMessage.span_id) :
    l.filter (fun t => decide (t.span_id = s)) = [] := by
  induction l with
  | nil => rfl
  | cons t rest ih =>
    simp only [List.map_cons, List.mem_cons] at h
    push_neg at h
    rw [List.filter_cons, if_neg (by simpa using fun hc => h.1 hc.symm)]
    exact ih h.2

/-- After an upsert into a list with distinct span ids, the entries carrying
the message's span id are exactly the message itself. -/
theorem filter_span_upsertTrace (l : List TraceMessage) (m : TraceMessage)
    (h : (l.map TraceMessage.span_id).Nodup) :
    (upsertTrace l m).filter (fun t => decide (t.span_id = m.span_id)) = [m] := by
  induction l with
  | nil => simp [upsertTrace]
  | cons t rest ih =>
    simp only [List.map_cons, List.nodup_cons] at h
    by_cases hc : t.span_id = m.span_id
    · rw [upsertTrace, if_pos hc]
      rw [List.filter_cons, if_pos (by simp)]
      rw [filter_span_eq_nil rest m.span_id (by rw [← hc]; exact h.1)]
    · rw [upsertTrace, if_neg hc]
      rw [List.filter_cons, if_neg (by simpa using hc)]
      exact ih h.2

/-- C3: delivering two trace messages A then B with the same run id and span
id to a registered run (whose stored spans are distinct, the invariant the
upsert maintains from the empty list) leaves exactly one entry for that span
id, equal to B — in both `RunService.handle_trace` and
`EvalRunService.handle_trace` — and a message whose span id matches no
existing entry is appended at the end, preserving the order of the other
spans. -/
theorem trace_upsert_idempotent (A B : TraceMessage)
    (hrun : B.run_id = A.run_id) (hspan : B.span_id = A.span_id) :
    (∀ (tbl : RunTable) (run : ExecutionRun), tbl A.run_id = some run →
      (run.traces.map TraceMessage.span_id).Nodup →
      ∃ r2 : ExecutionRun,
        (RunService.handleTrace (RunService.handleTrace tbl A).1 B).1 A.run_id = some r2 ∧
        r2.traces.filter (fun t => decide (t.span_id = A.span_id)) = [B]) ∧
    (∀ (tbl : EvalRunTable) (run : EvalRun), tbl A.run_id = some run →
      (run.traces.map TraceMessage.span_id).Nodup →
      ∃ r2 : EvalRun,
        (EvalRunService.handleTrace (EvalRunService.handleTrace tbl A).1 B).1 A.run_id = some r2 ∧
        r2.traces.filter (fun t => decide (t.span_id = A.span_id)) = [B]) ∧
    (∀ (l : List TraceMessage) (m : TraceMessage),
      m.span_id ∉ l.map TraceMessage.span_id → upsertTrace l m = l ++ [m]) := by
  refine ⟨?_, ?_, upsertTrace_of_not_mem⟩
  · intro tbl run htbl hnd
    refine ⟨{ run with traces := upsertTrace (upsertTrace run.traces A) B }, ?_, ?_⟩
    · set tbl1 := (RunService.handleTrace tbl A).1 with hg
      have h1 : tbl1 B.run_id = some { run with traces := upsertTrace run.traces A } := by
        rw [hg, hrun]
        simp [RunService.handleTrace, htbl]
      have h2 : tbl1 A.run_id = some { run with traces := upsertTrace run.traces A } := by
        rw [← hrun]
        exact h1
      simp [RunService.handleTrace, h1, h2, hrun]
    · rw [← hspan]
      exact filter_span_upsertTrace (upsertTrace run.traces A) B
        (nodup_upsertTrace run.traces A hnd)
  · intro tbl run htbl hnd
    refine ⟨{ run with traces := upsertTrace (upsertTrace run.traces A) B }, ?_, ?_⟩
    · set tbl1 := (EvalRunService.handleTrace tbl A).1 with hg
      have h1 : tbl1 B.run_id = some { run with traces := upsertTrace run.traces A } := by
        rw [hg, hrun]
        simp [EvalRunService.handleTrace, htbl]
      have h2 : tbl1 A.run_id = some { run with traces := upsertTrace run.traces A } := by
        rw [← hrun]
        exact h1
      simp [EvalRunService.handleTrace, h1, h2, hrun]
    · rw [← hspan]
      exact filter_span_upsertTrace (upsertTrace run.traces A) B
        (nodup_upsertTrace run.traces A hnd)

/-- Witness for the trace-upsert theorem: delivering the started and the
completed message for the same span to the registered sample run leaves
exactly the completed message stored for that span. -/
theorem trace_upsert_idempotent_witness :
    exampleRunTable exampleTraceA.run_id = some examplePendingRun ∧
    ∃ r2 : ExecutionRun,
      (RunService.handleTrace (RunService.handleTrace exampleRunTable exampleTraceA).1
        exampleTraceB).1 exampleTraceA.run_id = some r2 ∧
      r2.traces.filter (fun t => decide (t.span_id = exampleTraceA.span_id)) = [exampleTraceB] :=
  ⟨rfl, (trace_upsert_idempotent exampleTraceA exampleTraceB rfl rfl).1
    exampleRunTable examplePendingRun rfl (by simp [examplePendingRun])⟩

/-- C5: on every exception escaping the evaluation inside
`EvalRunService.execute`, before the exception propagates the run is failed,
`end_time` is stamped, a final update notification is emitted, and `run.error`
is populated: a `SystemExit` yields code `"SystemExit"` and is re-raised as a
generic `RuntimeError`; any other exception yields its type name as code and
is re-raised unchanged when it is an ordinary `Exception`, wrapped in a
`RuntimeError` when it is a system-level `BaseException`. -/
theorem evalservice_failure_paths (run : EvalRun) (now : Nat) :
    (∀ code : Int,
      (EvalRunService.executeEval run (EvalOutcome.sysExit code) now).run.status = "failed" ∧
      (EvalRunService.executeEval run (EvalOutcome.sysExit code) now).run.end_time = some now ∧
      (∃ c : UiPathErrorContract,
        (EvalRunService.executeEval run (EvalOutcome.sysExit code) now).run.error = some c ∧
        c.code = "SystemExit") ∧
      (EvalRunService.executeEval run (EvalOutcome.sysExit code) now).events.getLast? =
        some SvcEvent.runUpdated ∧
      (EvalRunService.executeEval run (EvalOutcome.sysExit code) now).raised =
        some (RaisedError.runtimeError
          ("Evaluation process exited with code: " ++ toString code))) ∧
    (∀ (typeName msg : String) (isException : Bool),
      (EvalRunService.executeEval run (EvalOutcome.exc typeName msg isException) now).run.status =
        "failed" ∧
      (EvalRunService.executeEval run (EvalOutcome.exc typeName msg isException) now).run.end_time =
        some now ∧
      (∃ c : UiPathErrorContract,
        (EvalRunService.executeEval run (EvalOutcome.exc typeName msg isException) now).run.error =
          some c ∧ c.code = typeName) ∧
      (EvalRunService.executeEval run (EvalOutcome.exc typeName msg isException) now).events.getLast? =
        some SvcEvent.runUpdated ∧
      (isException = true →
        (EvalRunService.executeEval run (EvalOutcome.exc typeName msg isException) now).raised =
          some (RaisedError.reraised typeName msg)) ∧
      (isException = false →
        (EvalRunService.executeEval run (EvalOutcome.exc typeName msg isException) now).raised =
          some (RaisedError.runtimeError
            (typeName ++ ": " ++ (if msg = "" then "(no message)" else msg))))) := by
  constructor
  · intro code
    refine ⟨?_, ?_, ⟨_, rfl, rfl⟩, ?_, ?_⟩ <;>
      simp [EvalRunService.executeEval, addInfoLogE, addErrorLogE]
  · intro typeName msg isException
    refine ⟨?_, ?_, ?_, ?_, ?_, ?_⟩
    · simp [EvalRunService.executeEval, evalHandleBaseExc, addInfoLogE, addErrorLogE]
    · simp [EvalRunService.executeEval, evalHandleBaseExc, addInfoLogE, addErrorLogE]
    · exact ⟨{ code := typeName
               title := if msg = "" then "(no message)" else msg
               detail := "traceback" }, rfl, rfl⟩
    · simp [EvalRunService.executeEval, evalHandleBaseExc, addInfoLogE, addErrorLogE]
    · intro h
      simp [EvalRunService.executeEval, evalHandleBaseExc, addInfoLogE, addErrorLogE, h]
    · intro h
      simp [EvalRunService.executeEval, evalHandleBaseExc, addInfoLogE, addErrorLogE, h]

/-- Witness for the failure-path theorem: a `ValueError` (an ordinary
exception) injected into a concrete run is recorded with its type name and
re-raised unchanged. -/
theorem evalservice_failure_paths_witness :
    (true = true →
      (EvalRunService.executeEval exampleEvalRun (EvalOutcome.exc "ValueError" "bad" true) 5).raised =
        some (RaisedError.reraised "ValueError" "bad")) ∧
    (EvalRunService.executeEval exampleEvalRun (EvalOutcome.exc "ValueError" "bad" true) 5).run.status =
      "failed" :=
  ⟨((evalservice_failure_paths exampleEvalRun 5).2 "ValueError" "bad" true).2.2.2.2.1,
   ((evalservice_failure_paths exampleEvalRun 5).2 "ValueError" "bad" true).1⟩

/-- Shape of every successful return of `_parse_eval_results`: the run is
returned with zero or more evaluation results appended; no other field is
touched. -/
theorem parseEvalResults_ok_shape (r : EvalRun) (o : Option ResultsOutput)
    (f : Option String) (fs : String → Option String) (jp : String → Option Json)
    (r2 : EvalRun) (h : parseEvalResults r o f fs jp = Except.ok r2) :
    ∃ added : List EvaluationResult,
      r2 = { r with evaluation_results := r.evaluation_results ++ added } := by
  unfold parseEvalResults at h
  cases hdd : dataWithFileFallback (inlineData o jp) f fs jp with
  | none =>
    simp only [hdd] at h
    refine ⟨[], ?_⟩
    injection h with h2
    simp [← h2]
  | some d =>
    simp only [hdd] at h
    by_cases ht : d.truthy
    · rw [if_pos ht] at h
      cases h1 : d.getD "evaluationSetResults" (Json.arr []) with
      | error e =>
        simp only [h1, bind, Except.bind] at h
        cases h
      | ok esr =>
        cases h2 : esr.iterElems with
        | error e =>
          simp only [h1, h2, bind, Except.bind] at h
          cases h
        | ok elems =>
          cases h3 : exceptMapM parseOneEvaluation elems with
          | error e =>
            simp only [h1, h2, h3, bind, Except.bind] at h
            cases h
          | ok results =>
            simp only [h1, h2, h3, bind, Except.bind] at h
            refine ⟨results, ?_⟩
            injection h with h4
            exact h4.symm
    · rw [if_neg ht] at h
      refine ⟨[], ?_⟩
      injection h with h2
      simp [← h2]

/-- C10: on the successful path of `EvalRunService.execute` (nothing in the
try body raises, so nothing is propagated), the run is completed but its
`end_time` is never written — it keeps its prior value, `none` for a freshly
constructed run, so `duration` keeps being computed against the current
clock — while both failure paths do stamp `end_time`. -/
theorem evalservice_success_leaves_end_time (run : EvalRun)
    (o : Option ResultsOutput) (fs : String → Option String)
    (jp : String → Option Json) (now : Nat)
    (h : (EvalRunService.executeEval run (EvalOutcome.success o fs jp) now).raised = none) :
    (EvalRunService.executeEval run (EvalOutcome.success o fs jp) now).run.end_time =
      run.end_time ∧
    (EvalRunService.executeEval run (EvalOutcome.success o fs jp) now).run.status =
      "completed" ∧
    (run.end_time = none →
      ∀ now2 : Nat,
        (EvalRunService.executeEval run (EvalOutcome.success o fs jp) now).run.durationSeconds now2 =
          (now2 : Int) -
            ((EvalRunService.executeEval run (EvalOutcome.success o fs jp) now).run.start_time : Int)) ∧
    (∀ code : Int,
      (EvalRunService.executeEval run (EvalOutcome.sysExit code) now).run.end_time = some now) ∧
    (∀ (t m : String) (b : Bool),
      (EvalRunService.executeEval run (EvalOutcome.exc t m b) now).run.end_time = some now) := by
  refine ⟨?_, ?_, ?_, ?_, ?_⟩
  · simp only [EvalRunService.executeEval, addInfoLogE] at h ⊢
    split at h
    · rename_i r2 heq
      obtain ⟨added, rfl⟩ := parseEvalResults_ok_shape _ _ _ _ _ _ heq
      simp [heq]
    · rename_i e heq
      simp [evalHandleBaseExc, addErrorLogE, heq] at h
  · simp only [EvalRunService.executeEval, addInfoLogE] at h ⊢
    split at h
    · rename_i r2 heq
      obtain ⟨added, rfl⟩ := parseEvalResults_ok_shape _ _ _ _ _ _ heq
      simp [heq]
    · rename_i e heq
      simp [evalHandleBaseExc, addErrorLogE, heq] at h
  · intro hend now2
    simp only [EvalRunService.executeEval, addInfoLogE] at h ⊢
    split at h
    · rename_i r2 heq
      obtain ⟨added, rfl⟩ := parseEvalResults_ok_shape _ _ _ _ _ _ heq
      simp [heq, EvalRun.durationSeconds, hend]
    · rename_i e heq
      simp [evalHandleBaseExc, addErrorLogE, heq] at h
  · intro code
    simp [EvalRunService.executeEval, addInfoLogE, addErrorLogE]
  · intro t m b
    simp [EvalRunService.executeEval, evalHandleBaseExc, addInfoLogE, addErrorLogE]

/-- Witness for the success-path theorem: a concrete run driven with no
parseable result data completes without touching `end_time`. -/
theorem evalservice_success_leaves_end_time_witness :
    (EvalRunService.executeEval exampleEvalRun
      (EvalOutcome.success none (fun _ => none) (fun _ => none)) 9).raised = none ∧
    (EvalRunService.executeEval exampleEvalRun
      (EvalOutcome.success none (fun _ => none) (fun _ => none)) 9).run.end_time =
      exampleEvalRun.end_time :=
  ⟨rfl, (evalservice_success_leaves_end_time exampleEvalRun none
    (fun _ => none) (fun _ => none) 9 rfl).1⟩

/-- Decoding inverts the timestamp encoding. -/
theorem fromisoformat_isoformat (t : Nat) :
    DateTime.fromisoformat (DateTime.isoformat t) = t := by
  simp [DateTime.fromisoformat, DateTime.isoformat]

/-- Encoded timestamps are never the empty string (as real ISO-8601 strings
never are), so the truthiness guards of `from_dict` accept them. -/
theorem isoformat_ne_empty (t : Nat) : DateTime.isoformat t ≠ "" := by
  intro h
  have hlen := congrArg String.length h
  simp [DateTime.isoformat] at hlen

/-- Deserializing a serialized evaluator result is the identity. -/
theorem evaluator_result_roundtrip (r : EvaluatorResult) :
    EvaluatorResultDict.toResult (EvaluatorResult.to_dict r) = r := rfl

/-- Deserializing a serialized evaluation result is the identity. -/
theorem evaluation_result_roundtrip (r : EvaluationResult) :
    EvaluationResultDict.toResult (EvaluationResult.to_dict r) = r := by
  cases r with
  | mk eval_id eval_name evaluator_results =>
    simp [EvaluationResultDict.toResult, EvaluationResult.to_dict,
      List.map_map, Function.comp_def, evaluator_result_roundtrip]

/-- C9: `EvalRun.from_dict (r.to_dict)` restores every serialized field of `r`
— id, name, paths, entrypoint, status, both timestamps, evaluator refs, the
full evaluation results with all nested evaluator fields, the error contract,
and all execution options; only the unserialized `logs`/`traces` come back
empty. The hypothesis is the constructor invariant: `__init__` never leaves
an empty name (it replaces it with `Run: <id>`). -/
theorem evalrun_serialization_roundtrip (r : EvalRun) (freshId : String)
    (now : Nat) (hname : r.name ≠ "") :
    EvalRun.from_dict (EvalRun.to_dict r) freshId now =
      { r with logs := [], traces := [] } := by
  cases r with
  | mk id eval_set_path entrypoint name status start_time end_time evaluator_refs
      evaluation_results error logs traces no_report workers eval_set_run_id
      enable_mocker_cache eval_ids report_coverage output_file =>
    simp only [EvalRun.from_dict, EvalRun.to_dict, EvalRun.make] at *
    cases end_time with
    | none =>
      simp [isoformat_ne_empty, fromisoformat_isoformat, hname,
        List.map_map, Function.comp_def, evaluation_result_roundtrip]
    | some e =>
      simp [isoformat_ne_empty, fromisoformat_isoformat, hname,
        List.map_map, Function.comp_def, evaluation_result_roundtrip]

/-- Witness for the serialization round-trip at the concrete example run. -/
theorem evalrun_serialization_roundtrip_witness :
    exampleEvalRun.name ≠ "" ∧
    EvalRun.from_dict (EvalRun.to_dict exampleEvalRun) "fresh" 3 =
      { exampleEvalRun with logs := [], traces := [] } :=
  ⟨by simp [exampleEvalRun],
   evalrun_serialization_roundtrip exampleEvalRun "fresh" 3 (by simp [exampleEvalRun])⟩

/-- C7 counterexample: the in-memory output is absent and the output file
exists and contains valid JSON (`[0]`), yet `_parse_eval_results` raises an
`AttributeError` (from `data.get` on the parsed list) instead of populating
`evaluation_results` and returning normally, refuting both the
populated-from-file and the never-raises parts of the claim. -/
theorem parse_results_counterexample :
    parseEvalResults exampleEvalRun none (some "out.json")
      (fun _ => some "[0]") (fun _ => some (Json.arr [Json.num 0])) =
      Except.error (PyError.attrError "get") := rfl

/-- Parsing one well-shaped evaluator entry succeeds with the expected fields. -/
theorem parseOneEvaluator_wellShaped (v : String × ℚ × String × ℚ × String) :
    parseOneEvaluator (Json.obj [("evaluatorName", Json.str v.1),
      ("result", Json.obj [("score", Json.num v.2.1),
        ("details", Json.str v.2.2.1),
        ("evaluationTime", Json.num v.2.2.2.1),
        ("justification", Json.str v.2.2.2.2)])]) =
      Except.ok (expectedEvaluatorResult v) := rfl

/-- Mapping the parser over a list of well-shaped evaluator entries succeeds
with the expected results. -/
theorem mapM_parseOneEvaluator_wellShaped
    (evs : List (String × ℚ × String × ℚ × String)) :
    exceptMapM parseOneEvaluator (evs.map (fun v =>
      Json.obj [("evaluatorName", Json.str v.1),
        ("result", Json.obj [("score", Json.num v.2.1),
          ("details", Json.str v.2.2.1),
          ("evaluationTime", Json.num v.2.2.2.1),
          ("justification", Json.str v.2.2.2.2)])])) =
      Except.ok (evs.map expectedEvaluatorResult) := by
  induction evs with
  | nil => rfl
  | cons v rest ih =>
    simp only [List.map_cons, exceptMapM, parseOneEvaluator_wellShaped v, ih,
      bind, Except.bind, List.map]

/-- C7 amended: result parsing is best-effort over its two sources — when
neither the in-memory output (absent, or a string no JSON parser accepts) nor
the output file yields parseable data, the run is returned unchanged (so a
fresh run keeps `evaluation_results = []`) without raising; and when the
inline output is absent but the output file exists and holds a valid JSON
**object** in the documented `evaluationSetResults` shape, the evaluation
results are populated from that file. (A parseable payload that is not an
object raises, per the counterexample.) -/
theorem parse_results_fallback_amended :
    (∀ (run : EvalRun) (o : Option ResultsOutput) (file : Option String)
      (fs : String → Option String) (jp : String → Option Json),
      (∀ s, jp s = none) →
      (o = none ∨ ∃ s, o = some (ResultsOutput.strVal s)) →
      parseEvalResults run o file fs jp = Except.ok run) ∧
    (∀ (run : EvalRun) (f contents : String) (fs : String → Option String)
      (jp : String → Option Json) (evalId evalName : String)
      (evs : List (String × ℚ × String × ℚ × String)),
      fs f = some contents →
      jp contents = some (wellShapedPayload evalId evalName evs) →
      parseEvalResults run none (some f) fs jp =
        Except.ok { run with evaluation_results := run.evaluation_results ++
          [{ eval_id := evalId
             eval_name := evalName
             evaluator_results := evs.map expectedEvaluatorResult }] }) := by
  constructor
  · intro run o file fs jp hjp ho
    have hinline : inlineData o jp = none := by
      rcases ho with rfl | ⟨s, rfl⟩
      · rfl
      · simp [inlineData, hjp, ite_self]
    have hdata : dataWithFileFallback (inlineData o jp) file fs jp = none := by
      rw [hinline]
      cases file with
      | none => rfl
      | some f =>
        cases hfs : fs f with
        | none => simp [dataWithFileFallback, hfs]
        | some contents => simp [dataWithFileFallback, hfs, hjp]
    rw [parseEvalResults, hdata]
  · intro run f contents fs jp evalId evalName evs hfs hjp
    have hdata : dataWithFileFallback (inlineData none jp) (some f) fs jp =
        some (wellShapedPayload evalId evalName evs) := by
      simp [inlineData, dataWithFileFallback, hfs, hjp]
    rw [parseEvalResults]
    simp only [hdata]
    rw [if_pos (by simp [wellShapedPayload, Json.truthy])]
    have hesr : (wellShapedPayload evalId evalName evs).getD
        "evaluationSetResults" (Json.arr []) =
        Except.ok (Json.arr [Json.obj
          [("evaluationName", Json.str evalName),
           ("evaluationId", Json.str evalId),
           ("evaluationRunResults", Json.arr (evs.map (fun v =>
             Json.obj [("evaluatorName", Json.str v.1),
               ("result", Json.obj [("score", Json.num v.2.1),
                 ("details", Json.str v.2.2.1),
                 ("evaluationTime", Json.num v.2.2.2.1),
                 ("justification", Json.str v.2.2.2.2)])])))]]) := by
      simp [wellShapedPayload, Json.getD, Json.lookupKey]
    rw [hesr]
    simp only [bind, Except.bind, Json.iterElems]
    have hone : parseOneEvaluation (Json.obj
        [("evaluationName", Json.str evalName),
         ("evaluationId", Json.str evalId),
         ("evaluationRunResults", Json.arr (evs.map (fun v =>
           Json.obj [("evaluatorName", Json.str v.1),
             ("result", Json.obj [("score", Json.num v.2.1),
               ("details", Json.str v.2.2.1),
               ("evaluationTime", Json.num v.2.2.2.1),
               ("justification", Json.str v.2.2.2.2)])])))]) =
        Except.ok { eval_id := evalId
                    eval_name := evalName
                    evaluator_results := evs.map expectedEvaluatorResult } := by
      rw [parseOneEvaluation]
      simp only [Json.getD, Json.lookupKey, List.find?, Json.iterElems, bind, Except.bind]
      simp [mapM_parseOneEvaluator_wellShaped, bind, Except.bind, Json.asStr]
    simp only [exceptMapM, hone, bind, Except.bind]

/-- Witness for the amended fallback theorem: with a parser that accepts
nothing, the example run is returned unchanged; with a file holding one
well-shaped evaluation carrying one evaluator score, the results are
populated from the file. -/
theorem parse_results_fallback_amended_witness :
    parseEvalResults exampleEvalRun none (some "out.json")
      (fun _ => some "garbage") (fun _ => none) = Except.ok exampleEvalRun ∧
    parseEvalResults exampleEvalRun none (some "out.json")
      (fun _ => some "payload")
      (fun _ => some (wellShapedPayload "e9" "demo" [("ev", 1, "d", 2, "j")])) =
      Except.ok { exampleEvalRun with evaluation_results :=
        exampleEvalRun.evaluation_results ++
          [{ eval_id := "e9"
             eval_name := "demo"
             evaluator_results := [("ev", (1:ℚ), "d", (2:ℚ), "j")].map expectedEvaluatorResult }] } :=
  ⟨parse_results_fallback_amended.1 exampleEvalRun none (some "out.json")
      (fun _ => some "garbage") (fun _ => none) (fun _ => rfl) (Or.inl rfl),
   parse_results_fallback_amended.2 exampleEvalRun "out.json" "payload"
      (fun _ => some "payload")
      (fun _ => some (wellShapedPayload "e9" "demo" [("ev", 1, "d", 2, "j")]))
      "e9" "demo" [("ev", 1, "d", 2, "j")] rfl rfl⟩
